import Mathlib

/-
  Verification of the windowed incremental synchronization core of the CTMP
  repository (src/lib/my_datetime.py, src/lib/ticker_manager.py,
  src/lib/wrapper_binance.py, src/lib/exchange_lib_manager.py).

  Modelling conventions:
  * A datetime.datetime value (UTC, microseconds already irrelevant after
    timeframe alignment) is modelled as an Int: seconds since the Unix epoch.
    Python timedelta arithmetic on datetimes is exact integer arithmetic on
    seconds, so every source operation below maps to Int arithmetic.
  * math.trunc(x / y) on an exact integer ratio is Int.tdiv (division
    truncating toward zero); the float rounding of the intermediate Python
    division is irrelevant at the magnitudes of realistic timestamps.
  * Python percent on positive operands (the only ones reachable in the
    planner, where block_length is a positive row budget) agrees with
    Int.emod, written % below.
  * A Timeframe object always carries one of the three supported values
    built from DEFAULT_BASE_TIMEFRAME (1m / 1h / 1d), so it is modelled as
    the inductive Tf; the TimeframeNotSupportedError branches of the source
    are unreachable for these three values.
  * Python None is modelled with Option, a raised exception with
    Except.error or Option.none as noted at each definition.
-/

namespace CTMP

/-- Supported timeframes: the three frames of DEFAULT_BASE_TIMEFRAME in
src/lib/my_datetime.py (selected_minute 1m, selected_hour 1h,
selected_day 1d). -/
inductive Tf where
  | minute
  | hour
  | day
deriving DecidableEq

/-- Timeframe.to_seconds (src/lib/my_datetime.py lines 269-284): number of
seconds of one timeframe unit. -/
def Tf.to_seconds : Tf → Int
  | .minute => 60
  | .hour => 3600
  | .day => 86400

/-- delta_seconds (src/lib/my_datetime.py lines 402-407):
math.trunc((d1 - d2).total_seconds()); exact on whole-second datetimes. -/
def delta_seconds (date_datetime_1 date_datetime_2 : Int) : Int :=
  date_datetime_1 - date_datetime_2

/-- delta_minutes (lines 410-414): math.trunc(delta_seconds / 60). -/
def delta_minutes (date_datetime_1 date_datetime_2 : Int) : Int :=
  Int.tdiv (delta_seconds date_datetime_1 date_datetime_2) 60

/-- delta_hours (lines 417-421): math.trunc(delta_minutes / 60). -/
def delta_hours (date_datetime_1 date_datetime_2 : Int) : Int :=
  Int.tdiv (delta_minutes date_datetime_1 date_datetime_2) 60

/-- delta_days (lines 424-428): math.trunc(delta_hours / 24). -/
def delta_days (date_datetime_1 date_datetime_2 : Int) : Int :=
  Int.tdiv (delta_hours date_datetime_1 date_datetime_2) 24

/-- get_diff_units (src/lib/my_datetime.py lines 431-445): number of time
units from start_date to end_date given the timeframe. -/
def get_diff_units (start_date end_date : Int) (timeframe : Tf) : Int :=
  match timeframe with
  | .minute => delta_minutes end_date start_date
  | .hour => delta_hours end_date start_date
  | .day => delta_days end_date start_date

/-- adj_date_from_timeframe (lines 448-463). ignore_seconds, ignore_minutes
and ignore_hours zero the fields below the timeframe grid; on epoch seconds
this is flooring to the grid width (each UTC minute, hour and day starts at
a multiple of 60, 3600, 86400 seconds from the epoch; Python datetimes have
no leap seconds). -/
def adj_date_from_timeframe (date : Int) (timeframe : Tf) : Int :=
  match timeframe with
  | .minute => date - date % 60
  | .hour => date - date % 3600
  | .day => date - date % 86400

/-- is_datetime_has_timeframe (lines 599-608): the datetime respects the
timeframe grid. -/
def is_datetime_has_timeframe (date : Int) (timeframe : Tf) : Bool :=
  adj_date_from_timeframe date timeframe == date

/-- offset_datetime (src/lib/my_datetime.py lines 466-491): offset num_bars
timeframe units from date; branches on the sign exactly as the source does,
each branch using timedelta(unit = abs(num_bars)). -/
def offset_datetime (date : Int) (num_bars : Int) (timeframe : Tf) : Int :=
  if num_bars ≤ 0 then
    date - (num_bars.natAbs : Int) * timeframe.to_seconds
  else
    date + (num_bars.natAbs : Int) * timeframe.to_seconds

/-- Inner loop of build_datetime_endpoints (src/lib/my_datetime.py lines
515-519): walk backward from last_date, emitting one (first, last) window
per entry of samples_per_query_lst. -/
def build_endpoints_go (timeframe : Tf) :
    List Int → Int → List (Int × Int)
  | [], _ => []
  | num_samples :: rest, last_date_temp =>
    let first_date_temp := offset_datetime last_date_temp (-(num_samples - 1)) timeframe
    (first_date_temp, last_date_temp) ::
      build_endpoints_go timeframe rest (offset_datetime first_date_temp (-1) timeframe)

/-- build_datetime_endpoints (src/lib/my_datetime.py lines 494-520).
The source raises ZeroDivisionError when block_length is zero and uses the
Python floor conventions for a negative block_length; the callers only pass
positive budgets (198 and 98), and every claim below assumes
1 <= block_length, where % and tdiv agree with Python. -/
def build_datetime_endpoints (first_date last_date : Int) (timeframe : Tf)
    (block_length : Int) : List (Int × Int) :=
  if last_date < first_date then []
  else
    let total_time_units := get_diff_units first_date last_date timeframe + 1
    let k := total_time_units % block_length
    let samples_per_query_lst :=
      (if 0 < k then [k] else []) ++
        List.replicate (Int.tdiv total_time_units block_length).toNat block_length
    build_endpoints_go timeframe samples_per_query_lst last_date

/-! ### Helper lemmas on the calendar arithmetic -/

/-- The two sign branches of offset_datetime compute the same shift. -/
theorem offset_datetime_eq (date num_bars : Int) (tf : Tf) :
    offset_datetime date num_bars tf = date + num_bars * tf.to_seconds := by
  unfold offset_datetime
  by_cases h : num_bars ≤ 0
  · rw [if_pos h, Int.ofNat_natAbs_of_nonpos h]
    ring
  · rw [if_neg h, Int.natAbs_of_nonneg (le_of_not_le h)]

theorem to_seconds_pos (tf : Tf) : 0 < tf.to_seconds := by
  cases tf <;> decide

/-- Alignment to the timeframe grid is divisibility by the unit width. -/
theorem aligned_iff_dvd (date : Int) (tf : Tf) :
    is_datetime_has_timeframe date tf = true ↔ tf.to_seconds ∣ date := by
  cases tf <;>
    simp only [is_datetime_has_timeframe, adj_date_from_timeframe, Tf.to_seconds,
      beq_iff_eq, sub_eq_self] <;>
    exact ⟨fun h => Int.dvd_of_emod_eq_zero h, fun h => Int.emod_eq_zero_of_dvd h⟩

/-- get_diff_units is exact on differences that are whole multiples of the
timeframe unit: the nested truncating divisions cancel. -/
theorem get_diff_units_mul (tf : Tf) (x k : Int) :
    get_diff_units x (x + k * tf.to_seconds) tf = k := by
  cases tf
  · show Int.tdiv (x + k * 60 - x) 60 = k
    rw [add_sub_cancel_left, Int.mul_tdiv_cancel k (by decide)]
  · show Int.tdiv (Int.tdiv (x + k * 3600 - x) 60) 60 = k
    rw [add_sub_cancel_left, show k * 3600 = k * 60 * 60 by ring,
      Int.mul_tdiv_cancel (k * 60) (by decide), Int.mul_tdiv_cancel k (by decide)]
  · show Int.tdiv (Int.tdiv (Int.tdiv (x + k * 86400 - x) 60) 60) 24 = k
    rw [add_sub_cancel_left, show k * 86400 = k * 24 * 60 * 60 by ring,
      Int.mul_tdiv_cancel (k * 24 * 60) (by decide),
      Int.mul_tdiv_cancel (k * 24) (by decide), Int.mul_tdiv_cancel k (by decide)]

/-- Claim C10: offsetting by zero bars is the identity (the num_bars <= 0
branch of offset_datetime subtracts a zero timedelta). -/
theorem claim_C10 (t : Int) (tf : Tf) : offset_datetime t 0 tf = t := by
  rw [offset_datetime_eq]
  ring

/-- Claim C8: for timeframe-aligned datetimes the step count function
get_diff_units is antisymmetric, despite the truncating integer division
in the delta helpers. -/
theorem claim_C8 (tf : Tf) (a b : Int)
    (ha : is_datetime_has_timeframe a tf = true)
    (hb : is_datetime_has_timeframe b tf = true) :
    get_diff_units a b tf = - get_diff_units b a tf := by
  obtain ⟨k, hk⟩ : tf.to_seconds ∣ (b - a) :=
    dvd_sub ((aligned_iff_dvd b tf).mp hb) ((aligned_iff_dvd a tf).mp ha)
  have hb' : b = a + k * tf.to_seconds := by linear_combination hk
  have ha' : a = b + (-k) * tf.to_seconds := by linear_combination (-1 : Int) * hk
  have h1 : get_diff_units a b tf = k := by
    rw [hb']
    exact get_diff_units_mul tf a k
  have h2 : get_diff_units b a tf = -k := by
    rw [ha']
    exact get_diff_units_mul tf b (-k)
  rw [h1, h2]
  ring

/-- Witness for claim C8 at the concrete aligned pair 3600, 7200 (hourly). -/
theorem claim_C8_witness :
    get_diff_units 3600 7200 Tf.hour = - get_diff_units 7200 3600 Tf.hour :=
  claim_C8 Tf.hour 3600 7200 (by decide) (by decide)

/-! ### Window planner lemmas -/

/-- One unfolding step of the endpoint loop, with the offsets evaluated. -/
theorem build_endpoints_go_cons (tf : Tf) (n : Int) (rest : List Int) (L : Int) :
    build_endpoints_go tf (n :: rest) L =
      (L - (n - 1) * tf.to_seconds, L) ::
        build_endpoints_go tf rest (L - n * tf.to_seconds) := by
  show (offset_datetime L (-(n - 1)) tf, L) ::
      build_endpoints_go tf rest
        (offset_datetime (offset_datetime L (-(n - 1)) tf) (-1) tf) = _
  rw [offset_datetime_eq, offset_datetime_eq]
  congr 2 <;> ring

/-- The per-window tick counts emitted by the loop are the sample list. -/
theorem build_endpoints_go_sizes (tf : Tf) (ns : List Int) : ∀ L : Int,
    (build_endpoints_go tf ns L).map
      (fun w => get_diff_units w.1 w.2 tf + 1) = ns := by
  induction ns with
  | nil => intro L; rfl
  | cons n rest ih =>
    intro L
    rw [build_endpoints_go_cons, List.map_cons, ih]
    have h := get_diff_units_mul tf (L - (n - 1) * tf.to_seconds) (n - 1)
    rw [show L - (n - 1) * tf.to_seconds + (n - 1) * tf.to_seconds = L by ring] at h
    show (get_diff_units (L - (n - 1) * tf.to_seconds) L tf + 1) :: rest = n :: rest
    rw [h]
    congr 1
    ring

/-- Neighbouring windows emitted by the loop are exactly one step apart:
the older window ends one timeframe unit before the newer one starts. -/
theorem build_endpoints_go_chain (tf : Tf) (ns : List Int) : ∀ L : Int,
    List.Chain' (fun w w2 => w.1 = w2.2 + tf.to_seconds)
      (build_endpoints_go tf ns L) := by
  induction ns with
  | nil => intro L; simp [build_endpoints_go]
  | cons n rest ih =>
    intro L
    rw [build_endpoints_go_cons]
    cases rest with
    | nil => simp [build_endpoints_go]
    | cons m r2 =>
      rw [build_endpoints_go_cons]
      refine List.chain'_cons.mpr ⟨by ring, ?_⟩
      rw [← build_endpoints_go_cons]
      exact ih (L - n * tf.to_seconds)

/-- The newest emitted window ends at the requested last date. -/
theorem build_endpoints_go_head (tf : Tf) (ns : List Int) (L : Int)
    (h : ns ≠ []) :
    (build_endpoints_go tf ns L).head?.map Prod.snd = some L := by
  cases ns with
  | nil => exact absurd rfl h
  | cons n rest => rw [build_endpoints_go_cons]; rfl

/-- The oldest emitted window starts sum-of-samples minus one steps before
the requested last date. -/
theorem build_endpoints_go_last (tf : Tf) (ns : List Int) : ∀ L : Int, ns ≠ [] →
    (build_endpoints_go tf ns L).getLast?.map Prod.fst
      = some (L - (ns.sum - 1) * tf.to_seconds) := by
  induction ns with
  | nil => intro L h; exact absurd rfl h
  | cons n rest ih =>
    intro L _
    cases rest with
    | nil =>
      rw [build_endpoints_go_cons]
      show some (L - (n - 1) * tf.to_seconds)
        = some (L - ([n].sum - 1) * tf.to_seconds)
      rw [List.sum_singleton]
    | cons m r2 =>
      rw [build_endpoints_go_cons, build_endpoints_go_cons,
        List.getLast?_cons_cons, ← build_endpoints_go_cons,
        ih _ (List.cons_ne_nil m r2)]
      refine congrArg some ?_
      simp only [List.sum_cons]
      ring

/-- Unfolding of build_datetime_endpoints when the range is non-degenerate. -/
theorem build_datetime_endpoints_eq (first last : Int) (tf : Tf) (B : Int)
    (h : first ≤ last) :
    build_datetime_endpoints first last tf B =
      build_endpoints_go tf
        ((if 0 < (get_diff_units first last tf + 1) % B then
            [(get_diff_units first last tf + 1) % B] else []) ++
          List.replicate
            (Int.tdiv (get_diff_units first last tf + 1) B).toNat B)
        last := by
  unfold build_datetime_endpoints
  rw [if_neg (not_lt.mpr h)]

/-- The sample sizes produced by the planner add up to the inclusive tick
count of the range. -/
theorem samples_sum (total B : Int) (h1 : 1 ≤ total) (hB : 1 ≤ B) :
    ((if 0 < total % B then [total % B] else []) ++
      List.replicate (Int.tdiv total B).toNat B).sum = total := by
  have he : B * (total / B) + total % B = total := Int.ediv_add_emod total B
  have htd : Int.tdiv total B = total / B := Int.tdiv_eq_ediv (by omega) (by omega)
  have hdvnn : 0 ≤ total / B := Int.ediv_nonneg (by omega) (by omega)
  have hcast : ((Int.tdiv total B).toNat : Int) = total / B := by
    rw [htd]
    exact Int.toNat_of_nonneg hdvnn
  have hmod0 : 0 ≤ total % B := Int.emod_nonneg total (by omega)
  by_cases hk : 0 < total % B
  · rw [if_pos hk]
    simp only [List.sum_append, List.sum_cons, List.sum_nil, List.sum_replicate,
      nsmul_eq_mul, hcast]
    linear_combination he
  · have hk0 : total % B = 0 := by omega
    rw [if_neg hk]
    simp only [List.nil_append, List.sum_replicate, nsmul_eq_mul, hcast]
    linear_combination he - hk0

/-- Every sample size produced by the planner lies between 1 and the
block length. -/
theorem samples_mem (total B : Int) (hB : 1 ≤ B) :
    ∀ n ∈ (if 0 < total % B then [total % B] else []) ++
      List.replicate (Int.tdiv total B).toNat B, 1 ≤ n ∧ n ≤ B := by
  have hlt : total % B < B := Int.emod_lt_of_pos total (by omega)
  intro n hn
  rcases List.mem_append.mp hn with h | h
  · by_cases hk : 0 < total % B
    · rw [if_pos hk] at h
      have hn' : n = total % B := List.mem_singleton.mp h
      omega
    · rw [if_neg hk] at h
      exact absurd h (List.not_mem_nil n)
  · have hn' : n = B := List.eq_of_mem_replicate h
    omega

/-- Claim C1: for aligned first <= last and a window budget of at least one,
build_datetime_endpoints partitions the inclusive range: the newest window
ends at last, the oldest starts at first, window tick counts sum to
StepCount + 1, every window holds between 1 and maxPerWindow ticks, and
neighbouring windows are exactly adjacent (each window starts exactly one
timeframe step after the next older window ends). -/
theorem claim_C1 (tf : Tf) (first last B : Int)
    (hfirst : is_datetime_has_timeframe first tf = true)
    (hlast : is_datetime_has_timeframe last tf = true)
    (hle : first ≤ last) (hB : 1 ≤ B) :
    (build_datetime_endpoints first last tf B).head?.map Prod.snd = some last
    ∧ (build_datetime_endpoints first last tf B).getLast?.map Prod.fst = some first
    ∧ ((build_datetime_endpoints first last tf B).map
        (fun w => get_diff_units w.1 w.2 tf + 1)).sum
        = get_diff_units first last tf + 1
    ∧ (∀ w ∈ build_datetime_endpoints first last tf B,
        1 ≤ get_diff_units w.1 w.2 tf + 1 ∧ get_diff_units w.1 w.2 tf + 1 ≤ B)
    ∧ List.Chain' (fun w w2 => w.1 = w2.2 + tf.to_seconds)
        (build_datetime_endpoints first last tf B) := by
  obtain ⟨T, hT⟩ : tf.to_seconds ∣ (last - first) :=
    dvd_sub ((aligned_iff_dvd last tf).mp hlast) ((aligned_iff_dvd first tf).mp hfirst)
  have hs := to_seconds_pos tf
  have hTnn : 0 ≤ T := by nlinarith [hT]
  have hlast' : last = first + T * tf.to_seconds := by linear_combination hT
  have htotal : get_diff_units first last tf = T := by
    rw [hlast']
    exact get_diff_units_mul tf first T
  set ns : List Int := (if 0 < (T + 1) % B then [(T + 1) % B] else []) ++
      List.replicate (Int.tdiv (T + 1) B).toNat B with hnsdef
  have hbe : build_datetime_endpoints first last tf B
      = build_endpoints_go tf ns last := by
    rw [build_datetime_endpoints_eq first last tf B hle, htotal, hnsdef]
  have hsum : ns.sum = T + 1 := by
    rw [hnsdef]
    exact samples_sum (T + 1) B (by omega) hB
  have hmem : ∀ n ∈ ns, 1 ≤ n ∧ n ≤ B := by
    rw [hnsdef]
    exact samples_mem (T + 1) B hB
  have hne : ns ≠ [] := by
    intro h
    rw [h] at hsum
    simp only [List.sum_nil] at hsum
    omega
  refine ⟨?_, ?_, ?_, ?_, ?_⟩
  · rw [hbe]
    exact build_endpoints_go_head tf ns last hne
  · rw [hbe, build_endpoints_go_last tf ns last hne, hsum]
    refine congrArg some ?_
    linear_combination hT
  · rw [hbe, build_endpoints_go_sizes, hsum, htotal]
  · intro w hw
    rw [hbe] at hw
    have hmw : get_diff_units w.1 w.2 tf + 1 ∈ ns := by
      rw [← build_endpoints_go_sizes tf ns last]
      exact List.mem_map_of_mem _ hw
    exact hmem _ hmw
  · rw [hbe]
    exact build_endpoints_go_chain tf ns last

/-- Witness for claim C1: hourly range 1970-01-01T00:00Z to 04:00Z with a
budget of 2 ticks per window. -/
theorem claim_C1_witness :
    ((build_datetime_endpoints 0 14400 Tf.hour 2).map
        (fun w => get_diff_units w.1 w.2 Tf.hour + 1)).sum
      = get_diff_units 0 14400 Tf.hour + 1 :=
  (claim_C1 Tf.hour 0 14400 2 (by decide) (by decide) (by decide)
    (by decide)).2.2.1

/-- Counterexample to claim C2: hourly range with 5 ticks and budget 2
satisfies every hypothesis of the claim, yet the most recent window (the
head of the returned list, the one ending at last) holds a single tick
(not maxPerWindow = 2), while the oldest window is the full-sized one. -/
theorem claim_C2_counterexample :
    is_datetime_has_timeframe 0 Tf.hour = true
    ∧ is_datetime_has_timeframe 14400 Tf.hour = true
    ∧ (0 : Int) ≤ 14400
    ∧ (1 : Int) ≤ 2
    ∧ (get_diff_units 0 14400 Tf.hour + 1) % 2 ≠ 0
    ∧ build_datetime_endpoints 0 14400 Tf.hour 2
        = [(14400, 14400), (7200, 10800), (0, 3600)]
    ∧ (build_datetime_endpoints 0 14400 Tf.hour 2).head?.map Prod.snd
        = some 14400
    ∧ ¬ ((build_datetime_endpoints 0 14400 Tf.hour 2).head?.map
          (fun w => get_diff_units w.1 w.2 Tf.hour + 1) = some 2)
    ∧ (build_datetime_endpoints 0 14400 Tf.hour 2).getLast?.map
          (fun w => get_diff_units w.1 w.2 Tf.hour + 1) = some 2 := by
  decide

/-- Claim C2 as amended: when the inclusive tick count is not a multiple of
the budget, the single partial window is the MOST RECENT one (the head of
the list, ending at last, holding StepCount+1 mod maxPerWindow ticks),
and every other window, the oldest included, is full-sized. -/
theorem claim_C2_amended (tf : Tf) (first last B : Int)
    (hfirst : is_datetime_has_timeframe first tf = true)
    (hlast : is_datetime_has_timeframe last tf = true)
    (hle : first ≤ last) (hB : 1 ≤ B)
    (hrem : (get_diff_units first last tf + 1) % B ≠ 0) :
    (build_datetime_endpoints first last tf B).head?.map Prod.snd = some last
    ∧ (build_datetime_endpoints first last tf B).head?.map
        (fun w => get_diff_units w.1 w.2 tf + 1)
        = some ((get_diff_units first last tf + 1) % B)
    ∧ (get_diff_units first last tf + 1) % B < B
    ∧ (∀ w ∈ (build_datetime_endpoints first last tf B).tail,
        get_diff_units w.1 w.2 tf + 1 = B) := by
  obtain ⟨T, hT⟩ : tf.to_seconds ∣ (last - first) :=
    dvd_sub ((aligned_iff_dvd last tf).mp hlast) ((aligned_iff_dvd first tf).mp hfirst)
  have hs := to_seconds_pos tf
  have hTnn : 0 ≤ T := by nlinarith [hT]
  have hlast' : last = first + T * tf.to_seconds := by linear_combination hT
  have htotal : get_diff_units first last tf = T := by
    rw [hlast']
    exact get_diff_units_mul tf first T
  rw [htotal] at hrem ⊢
  have hmod0 : 0 ≤ (T + 1) % B := Int.emod_nonneg (T + 1) (by omega)
  have hmodlt : (T + 1) % B < B := Int.emod_lt_of_pos (T + 1) (by omega)
  have hbe : build_datetime_endpoints first last tf B
      = build_endpoints_go tf
          (((T + 1) % B) :: List.replicate (Int.tdiv (T + 1) B).toNat B) last := by
    rw [build_datetime_endpoints_eq first last tf B hle, htotal,
      if_pos (by omega : 0 < (T + 1) % B), List.singleton_append]
  have hsz := get_diff_units_mul tf
    (last - ((T + 1) % B - 1) * tf.to_seconds) ((T + 1) % B - 1)
  rw [show last - ((T + 1) % B - 1) * tf.to_seconds
      + ((T + 1) % B - 1) * tf.to_seconds = last by ring] at hsz
  refine ⟨?_, ?_, hmodlt, ?_⟩
  · rw [hbe]
    exact build_endpoints_go_head tf _ last (List.cons_ne_nil _ _)
  · rw [hbe, build_endpoints_go_cons]
    show some (get_diff_units (last - ((T + 1) % B - 1) * tf.to_seconds) last tf + 1)
      = some ((T + 1) % B)
    rw [hsz]
    refine congrArg some ?_
    ring
  · intro w hw
    rw [hbe, build_endpoints_go_cons] at hw
    have hmw : get_diff_units w.1 w.2 tf + 1
        ∈ List.replicate (Int.tdiv (T + 1) B).toNat B := by
      rw [← build_endpoints_go_sizes tf
        (List.replicate (Int.tdiv (T + 1) B).toNat B)
        (last - (T + 1) % B * tf.to_seconds)]
      exact List.mem_map_of_mem _ hw
    exact List.eq_of_mem_replicate hmw

/-- Witness for the amended claim C2 at the counterexample input: the head
window of the 5-tick hourly range with budget 2 holds 5 mod 2 = 1 tick. -/
theorem claim_C2_witness :
    (build_datetime_endpoints 0 14400 Tf.hour 2).head?.map
        (fun w => get_diff_units w.1 w.2 Tf.hour + 1)
      = some ((get_diff_units 0 14400 Tf.hour + 1) % 2) :=
  (claim_C2_amended Tf.hour 0 14400 2 (by decide) (by decide) (by decide)
    (by decide) (by decide)).2.1

/-! ### Consecutiveness checks (DateTimeManager) -/

/-- DateTimeManager._is_consecutive (src/lib/my_datetime.py lines 207-223):
two datetimes are consecutive when the second is the first plus one
timeframe delta (the timeframe of the manager is always one of the three
supported frames, so the raising branch is unreachable). -/
def _is_consecutive (tf : Tf) (prev_date act_date : Int) : Bool :=
  act_date == prev_date +
    (match tf with
     | .minute => 60
     | .hour => 3600
     | .day => 86400)

/-- Loop of DateTimeManager.get_non_consecutive_indexes (src/lib/my_datetime.py
lines 230-238): walk the list with the running previous element, collecting
the index pair (i-1, i) at every non-consecutive adjacent pair. -/
def get_non_consecutive_go (tf : Tf) (prev_date : Int) (i : Nat) :
    List Int → List (Nat × Nat)
  | [] => []
  | act_date :: rest =>
    if _is_consecutive tf prev_date act_date then
      get_non_consecutive_go tf act_date (i + 1) rest
    else
      (i - 1, i) :: get_non_consecutive_go tf act_date (i + 1) rest

/-- DateTimeManager.get_non_consecutive_indexes (src/lib/my_datetime.py lines
225-238). The source reads datetime_list[0] before the loop, which raises
IndexError on an empty list: that failure is modelled as none. -/
def get_non_consecutive_indexes (tf : Tf) (datetime_list : List Int) :
    Option (List (Nat × Nat)) :=
  match datetime_list with
  | [] => none
  | prev_date :: rest => some (get_non_consecutive_go tf prev_date 1 rest)

/-- Along a fully consecutive chain the loop collects nothing. -/
theorem get_non_consecutive_go_nil (tf : Tf) (l : List Int) : ∀ (prev : Int) (i : Nat),
    List.Chain (fun p q => _is_consecutive tf p q = true) prev l →
    get_non_consecutive_go tf prev i l = [] := by
  induction l with
  | nil => intro prev i _; rfl
  | cons a rest ih =>
    intro prev i hch
    rcases List.chain_cons.mp hch with ⟨h1, h2⟩
    show (if _is_consecutive tf prev a then
        get_non_consecutive_go tf a (i + 1) rest
      else (i - 1, i) :: get_non_consecutive_go tf a (i + 1) rest) = []
    rw [if_pos h1]
    exact ih a (i + 1) h2

/-- On a chain with exactly one break the loop collects exactly the index
pair of the break. -/
theorem get_non_consecutive_go_one (tf : Tf) (xs : List Int) :
    ∀ (prev : Int) (i : Nat) (a b : Int) (ys : List Int),
    List.Chain (fun p q => _is_consecutive tf p q = true) prev (xs ++ [a]) →
    _is_consecutive tf a b = false →
    List.Chain (fun p q => _is_consecutive tf p q = true) b ys →
    get_non_consecutive_go tf prev i (xs ++ a :: b :: ys)
      = [(i + xs.length, i + xs.length + 1)] := by
  induction xs with
  | nil =>
    intro prev i a b ys hpre hbad hpost
    rcases List.chain_cons.mp hpre with ⟨h1, _⟩
    show (if _is_consecutive tf prev a then
        get_non_consecutive_go tf a (i + 1) (b :: ys)
      else (i - 1, i) :: get_non_consecutive_go tf a (i + 1) (b :: ys))
      = [(i + 0, i + 0 + 1)]
    rw [if_pos h1]
    show (if _is_consecutive tf a b then
        get_non_consecutive_go tf b (i + 1 + 1) ys
      else (i + 1 - 1, i + 1) :: get_non_consecutive_go tf b (i + 1 + 1) ys)
      = [(i + 0, i + 0 + 1)]
    rw [if_neg (by simp [hbad]), get_non_consecutive_go_nil tf ys b (i + 1 + 1) hpost]
    simp
  | cons x xs' ih =>
    intro prev i a b ys hpre hbad hpost
    rcases List.chain_cons.mp hpre with ⟨h1, h2⟩
    show (if _is_consecutive tf prev x then
        get_non_consecutive_go tf x (i + 1) (xs' ++ a :: b :: ys)
      else (i - 1, i) :: get_non_consecutive_go tf x (i + 1) (xs' ++ a :: b :: ys))
      = [(i + (x :: xs').length, i + (x :: xs').length + 1)]
    rw [if_pos h1, ih x (i + 1) a b ys h2 hbad hpost]
    have hlen : i + 1 + xs'.length = i + (x :: xs').length := by
      simp only [List.length_cons]
      omega
    rw [hlen]

/-- Claim C7: on a non-empty list whose single non-consecutive adjacent pair
sits at positions (i-1, i) = (xs.length, xs.length + 1), the check returns
exactly that one index pair; on a list whose every adjacent pair is one
timeframe step apart it returns the empty list. -/
theorem claim_C7 (tf : Tf) :
    (∀ (xs ys : List Int) (a b : Int),
      List.Chain' (fun p q => _is_consecutive tf p q = true) (xs ++ [a]) →
      _is_consecutive tf a b = false →
      List.Chain' (fun p q => _is_consecutive tf p q = true) (b :: ys) →
      get_non_consecutive_indexes tf (xs ++ a :: b :: ys)
        = some [(xs.length, xs.length + 1)])
    ∧ (∀ (d : Int) (l : List Int),
      List.Chain' (fun p q => _is_consecutive tf p q = true) (d :: l) →
      get_non_consecutive_indexes tf (d :: l) = some []) := by
  constructor
  · intro xs ys a b hpre hbad hpost
    cases xs with
    | nil =>
      show some (get_non_consecutive_go tf a 1 (b :: ys)) = some [(0, 0 + 1)]
      refine congrArg some ?_
      show (if _is_consecutive tf a b then
          get_non_consecutive_go tf b (1 + 1) ys
        else (1 - 1, 1) :: get_non_consecutive_go tf b (1 + 1) ys) = [(0, 0 + 1)]
      rw [if_neg (by simp [hbad]),
        get_non_consecutive_go_nil tf ys b (1 + 1) hpost]
    | cons x xs' =>
      show some (get_non_consecutive_go tf x 1 (xs' ++ a :: b :: ys))
        = some [((x :: xs').length, (x :: xs').length + 1)]
      rw [get_non_consecutive_go_one tf xs' x 1 a b ys hpre hbad hpost]
      have hlen : 1 + xs'.length = (x :: xs').length := by
        simp only [List.length_cons]
        omega
      rw [hlen]
  · intro d l hch
    show some (get_non_consecutive_go tf d 1 l) = some []
    rw [get_non_consecutive_go_nil tf l d 1 hch]

/-- Witness for claim C7: the hourly list 00:00, 01:00, 03:00 has its single
gap between indexes 1 and 2 and the check reports exactly (1, 2); the
gap-free list 00:00, 01:00 yields no break pair. -/
theorem claim_C7_witness :
    get_non_consecutive_indexes Tf.hour [0, 3600, 10800] = some [(1, 2)]
    ∧ get_non_consecutive_indexes Tf.hour [0, 3600] = some [] :=
  ⟨(claim_C7 Tf.hour).1 [0] [] 3600 10800
      (List.Chain.cons (by decide) List.Chain.nil) (by decide) List.Chain.nil,
    (claim_C7 Tf.hour).2 0 [3600] (List.Chain.cons (by decide) List.Chain.nil)⟩

/-- Claim C9: the consecutiveness check is undefined on the empty list (the
source indexes element 0 and raises, modelled by none) and succeeds on every
non-empty list. -/
theorem claim_C9 (tf : Tf) :
    get_non_consecutive_indexes tf [] = none
    ∧ ∀ l : List Int, l ≠ [] →
        (get_non_consecutive_indexes tf l).isSome = true := by
  refine ⟨rfl, ?_⟩
  intro l hl
  cases l with
  | nil => exact absurd rfl hl
  | cons d rest => rfl

/-- Witness for claim C9: the check fails on the empty hourly list and
succeeds on a singleton list. -/
theorem claim_C9_witness :
    get_non_consecutive_indexes Tf.hour [] = none
    ∧ (get_non_consecutive_indexes Tf.hour [0]).isSome = true :=
  ⟨(claim_C9 Tf.hour).1, (claim_C9 Tf.hour).2 [0] (by decide)⟩

/-! ### Synchronizer state (ticker_manager.py) -/

/-- Download status codes of src/lib/my_base_objects.py lines 35-39. -/
def RESULTS_STATUS_OK : Int := 0

def RESULTS_STATUS_DATA_NOT_AVAILABLE : Int := 10

def RESULTS_STATUS_END_OF_DATA : Int := 11

def RESULTS_STATUS_GENERIC_ERROR : Int := 100

def RESULTS_STATUS_NETWORK_ERROR : Int := 101

/-- The mutable fields of DateTimeManager (src/lib/my_datetime.py lines
153-164) relevant to the synchronizer loop; None is Option.none. -/
structure DateTimeManagerState where
  timeframe : Tf
  first_available_datetime : Option Int
  initial_datetime : Option Int
  initial_datetime_id : Option Int
  final_datetime : Option Int
deriving DecidableEq

/-- DateTimeManager.set_initial_datetime (src/lib/my_datetime.py lines
166-174): raises StartEndDatetimesError (modelled by Except.error) when a
final datetime is set and the new date lies after it. -/
def set_initial_datetime (m : DateTimeManagerState) (date : Option Int) :
    Except Unit DateTimeManagerState :=
  match m.final_datetime, date with
  | some fin, some d =>
    if fin < d then Except.error ()
    else Except.ok { m with initial_datetime := date }
  | _, _ => Except.ok { m with initial_datetime := date }

/-- DateTimeManager.set_initial_datetime_id (src/lib/my_datetime.py lines
176-180). -/
def set_initial_datetime_id (m : DateTimeManagerState) (datetime_id : Int) :
    DateTimeManagerState :=
  { m with initial_datetime_id := some datetime_id }

/-- DateTimeManager.get_base_delta (src/lib/my_datetime.py lines 192-205):
the one-unit timedelta of the manager timeframe, in seconds. -/
def get_base_delta (m : DateTimeManagerState) : Int :=
  match m.timeframe with
  | .minute => 60
  | .hour => 3600
  | .day => 86400

/-- Break guard of src/lib/ticker_manager.py lines 425-433: a configured
final datetime lies before the first available datetime. -/
def final_before_first_available (m : DateTimeManagerState) : Bool :=
  match m.final_datetime, m.first_available_datetime with
  | some fin, some fav => decide (fin < fav)
  | _, _ => false

/-- Break guard of src/lib/ticker_manager.py lines 437-446: the database
already holds data up to the requested final datetime. -/
def last_date_past_final (last_date : Option Int) (m : DateTimeManagerState) : Bool :=
  match last_date, m.final_datetime with
  | some ld, some fin => decide (fin ≤ ld)
  | _, _ => false

/-- Checkpoint-reading prefix of one iteration of TickerAutoUpdater.updater
(src/lib/ticker_manager.py lines 424-458): the two break guards, then, when
the database holds a last date, the initial datetime is set to that date
plus one base delta, and the initial id to the last id plus one. none
models that the download call of line 460 is not reached in this iteration
(a break, or the StartEndDatetimesError raised by set_initial_datetime). -/
def updater_iteration_start (m : DateTimeManagerState)
    (last_date : Option Int) (last_id : Option Int) :
    Option DateTimeManagerState :=
  if final_before_first_available m then none
  else if last_date_past_final last_date m then none
  else
    match (match last_date with
           | some ld => set_initial_datetime m (some (ld + get_base_delta m))
           | none => Except.ok m) with
    | Except.error _ => none
    | Except.ok m1 =>
      some (match last_id with
            | some lid => set_initial_datetime_id m1 (lid + 1)
            | none => m1)

/-- TickerManager.is_init_datetime_match (src/lib/ticker_manager.py lines
145-154): the first row datetime equals the required initial datetime. The
source reads row 0 of the DataFrame; its call site (line 470) only runs it
on non-empty data, so the none branch of head? is unreachable there. -/
def is_init_datetime_match (m : DateTimeManagerState) (dates : List Int) : Bool :=
  match m.initial_datetime with
  | none => true
  | some req =>
    match dates.head? with
    | some det => det == req
    | none => false

/-- TickerManager.has_init_datetime_gap (src/lib/ticker_manager.py lines
156-165): the first row datetime is later than required. -/
def has_init_datetime_gap (m : DateTimeManagerState) (dates : List Int) : Bool :=
  match m.initial_datetime with
  | none => false
  | some req =>
    match dates.head? with
    | some det => req < det
    | none => false

/-- TickerManager.has_init_datetime_overlap (src/lib/ticker_manager.py lines
167-176): the first row datetime is earlier than required. -/
def has_init_datetime_overlap (m : DateTimeManagerState) (dates : List Int) : Bool :=
  match m.initial_datetime with
  | none => false
  | some req =>
    match dates.head? with
    | some det => det < req
    | none => false

/-- Outcome of the post-download part of one updater iteration. -/
inductive IterationOutcome where
  | wrote (dates : List Int)
  | blockedOverlap
  | emptyBreak
  | emptyContinue
deriving DecidableEq

/-- Post-download part of one iteration of TickerAutoUpdater.updater
(src/lib/ticker_manager.py lines 469-507): with data, the three-way
match / gap / overlap classification runs in order; the overlap branch
breaks out of the loop before the write of line 497, every other branch
falls through to the unconditional write (the non-consecutive check of
lines 486-494 only logs). Without data, the loop breaks when the last
download status is OK, or END_OF_DATA with a final datetime already
reached (lines 503-507). -/
def updater_post_download (m : DateTimeManagerState) (dates : List Int)
    (last_dowload_status : Option Int) (act_datetime : Int) : IterationOutcome :=
  if dates.isEmpty = false then
    if is_init_datetime_match m dates then IterationOutcome.wrote dates
    else if has_init_datetime_gap m dates then IterationOutcome.wrote dates
    else if has_init_datetime_overlap m dates then IterationOutcome.blockedOverlap
    else IterationOutcome.wrote dates
  else
    if last_dowload_status == some RESULTS_STATUS_OK
        || (last_dowload_status == some RESULTS_STATUS_END_OF_DATA
            && (match m.final_datetime with
                | some fin => decide (fin ≤ act_datetime)
                | none => false)) then
      IterationOutcome.emptyBreak
    else
      IterationOutcome.emptyContinue

/-- Per-iteration environment of the updater loop: the chunk produced by
ticker.download, the resulting download status, and the aligned current
datetime read at line 468. -/
structure IterationInput where
  chunk : List Int
  status : Option Int
  act_datetime : Int
deriving DecidableEq

/-- The updater while-loop (src/lib/ticker_manager.py lines 424-518)
projected onto its sequence of database writes, driven by one
IterationInput per iteration. A wrote outcome appends the chunk and
advances the checkpoint to its last row datetime; the overlap outcome and
the empty terminal statuses break; the remaining empty outcome continues
(the countdown of lines 514-518 performs no write). Row ids only feed
set_initial_datetime_id, which the modelled control flow never reads, so
the id checkpoint is threaded unchanged. -/
def updater_loop (m : DateTimeManagerState) (db_last_date db_last_id : Option Int) :
    List IterationInput → List (List Int)
  | [] => []
  | it :: rest =>
    match updater_iteration_start m db_last_date db_last_id with
    | none => []
    | some m1 =>
      match updater_post_download m1 it.chunk it.status it.act_datetime with
      | IterationOutcome.wrote ds =>
        ds :: updater_loop m1
          (match ds.getLast? with
           | some x => some x
           | none => db_last_date) db_last_id rest
      | IterationOutcome.blockedOverlap => []
      | IterationOutcome.emptyBreak => []
      | IterationOutcome.emptyContinue => updater_loop m1 db_last_date db_last_id rest

/-- Claim C3: whenever the checkpoint read at the start of an iteration
yields a last persisted timestamp and the iteration goes on to download,
the requested initial datetime for that download is exactly the checkpoint
plus one timeframe step. -/
theorem set_initial_datetime_ok (m : DateTimeManagerState) (date : Option Int)
    (m2 : DateTimeManagerState) (h : set_initial_datetime m date = Except.ok m2) :
    m2 = { m with initial_datetime := date } := by
  unfold set_initial_datetime at h
  cases hfin : m.final_datetime with
  | none =>
    rw [hfin] at h
    cases date <;> simp_all
  | some fin =>
    rw [hfin] at h
    cases date with
    | none => simp_all
    | some dd =>
      by_cases hlt : fin < dd
      · simp [hlt] at h
      · simp [hlt] at h
        exact h.symm

theorem claim_C3 (m : DateTimeManagerState) (d : Int) (last_id : Option Int)
    (m1 : DateTimeManagerState)
    (h : updater_iteration_start m (some d) last_id = some m1) :
    m1.initial_datetime = some (d + get_base_delta m) := by
  unfold updater_iteration_start at h
  by_cases h1 : final_before_first_available m = true
  · rw [if_pos h1] at h
    exact absurd h (by simp)
  · rw [if_neg h1] at h
    by_cases h2 : last_date_past_final (some d) m = true
    · rw [if_pos h2] at h
      exact absurd h (by simp)
    · rw [if_neg h2] at h
      rw [show (match some d with
          | some ld => set_initial_datetime m (some (ld + get_base_delta m))
          | none => Except.ok m)
          = set_initial_datetime m (some (d + get_base_delta m)) from rfl] at h
      rcases hse : set_initial_datetime m (some (d + get_base_delta m)) with e | m2
      · rw [hse] at h
        simp at h
      · rw [hse] at h
        have hm2 : m2 = { m with initial_datetime := some (d + get_base_delta m) } :=
          set_initial_datetime_ok m (some (d + get_base_delta m)) m2 hse
        cases last_id with
        | none =>
          simp only [Option.some.injEq] at h
          rw [← h, hm2]
        | some lid =>
          simp only [Option.some.injEq] at h
          rw [← h, hm2]
          rfl

/-- Witness for claim C3: the end-to-end hourly scenario of the spec; the
checkpoint 2023-01-09T07:00Z (epoch 1673247600) yields a requested start of
2023-01-09T08:00Z (epoch 1673251200). -/
theorem claim_C3_witness :
    ({ timeframe := Tf.hour, first_available_datetime := none,
       initial_datetime := some 1673251200, initial_datetime_id := none,
       final_datetime := none } : DateTimeManagerState).initial_datetime
      = some (1673247600 + get_base_delta
          { timeframe := Tf.hour, first_available_datetime := none,
            initial_datetime := none, initial_datetime_id := none,
            final_datetime := none }) :=
  claim_C3
    { timeframe := Tf.hour, first_available_datetime := none,
      initial_datetime := none, initial_datetime_id := none,
      final_datetime := none }
    1673247600 none
    { timeframe := Tf.hour, first_available_datetime := none,
      initial_datetime := some 1673251200, initial_datetime_id := none,
      final_datetime := none }
    (by decide)

/-- Claim C4: when a downloaded non-empty chunk starts strictly before the
requested initial datetime, the iteration takes the overlap branch, which
breaks out of the update loop before the write: the chunk is not written
and no further iteration of the loop writes anything for this ticker. -/
theorem claim_C4 (m : DateTimeManagerState) (db_last_date db_last_id : Option Int)
    (it : IterationInput) (rest : List IterationInput)
    (m1 : DateTimeManagerState) (req d0 : Int)
    (hstart : updater_iteration_start m db_last_date db_last_id = some m1)
    (hreq : m1.initial_datetime = some req)
    (hd0 : it.chunk.head? = some d0)
    (hlt : d0 < req) :
    updater_post_download m1 it.chunk it.status it.act_datetime
      = IterationOutcome.blockedOverlap
    ∧ updater_loop m db_last_date db_last_id (it :: rest) = [] := by
  have hne : it.chunk.isEmpty = false := by
    cases hc : it.chunk with
    | nil => rw [hc] at hd0; exact absurd hd0 (by simp)
    | cons x xs => rfl
  have hmatch : is_init_datetime_match m1 it.chunk = false := by
    unfold is_init_datetime_match
    rw [hreq, hd0]
    simp only [beq_eq_false_iff_ne, ne_eq]
    omega
  have hgap : has_init_datetime_gap m1 it.chunk = false := by
    unfold has_init_datetime_gap
    rw [hreq, hd0]
    simp only [decide_eq_false_iff_not, not_lt]
    omega
  have hovl : has_init_datetime_overlap m1 it.chunk = true := by
    unfold has_init_datetime_overlap
    rw [hreq, hd0]
    simpa using hlt
  have hpost : updater_post_download m1 it.chunk it.status it.act_datetime
      = IterationOutcome.blockedOverlap := by
    unfold updater_post_download
    rw [if_pos hne, if_neg (by rw [hmatch]; exact Bool.false_ne_true),
      if_neg (by rw [hgap]; exact Bool.false_ne_true), if_pos hovl]
  refine ⟨hpost, ?_⟩
  unfold updater_loop
  rw [hstart]
  simp only [hpost]

/-- Witness for claim C4: with checkpoint 1000 (hourly), the requested start
is 4600; a chunk starting at 100 overlaps and nothing is ever written. -/
theorem claim_C4_witness :
    updater_loop
      { timeframe := Tf.hour, first_available_datetime := none,
        initial_datetime := none, initial_datetime_id := none,
        final_datetime := none }
      (some 1000) none
      [{ chunk := [100], status := some RESULTS_STATUS_OK,
         act_datetime := 1000000 }] = [] :=
  (claim_C4
    { timeframe := Tf.hour, first_available_datetime := none,
      initial_datetime := none, initial_datetime_id := none,
      final_datetime := none }
    (some 1000) none
    { chunk := [100], status := some RESULTS_STATUS_OK, act_datetime := 1000000 }
    []
    { timeframe := Tf.hour, first_available_datetime := none,
      initial_datetime := some 4600, initial_datetime_id := none,
      final_datetime := none }
    4600 100 (by decide) (by decide) (by decide) (by decide)).2

/-! ### Resilient downloader (wrapper_binance.py, TickerDownloadManagerSpot) -/

/-- Outcome of one call of exchange_lib_manager.download_chunk_df as
observed by TickerDownloadManagerSpot.download (src/lib/wrapper_binance.py
lines 255-274): a DataFrame, kept as its list of row datetimes and possibly
empty after bounding, or one of the four classified exceptions.
serverTooBusy is what exchange_lib_manager.ExchangeManagerCCXT.fetch_OHLCV
(src/lib/exchange_lib_manager.py lines 148-160) raises when the underlying
client reports RateLimitExceeded. -/
inductive ChunkResult where
  | chunk (dates : List Int)
  | connectionError
  | networkError
  | serverTooBusy
  | resultsNotAvailable
deriving DecidableEq

/-- TickerDownloadManagerSpot.NUM_DATA_IN_QUERY (src/lib/wrapper_binance.py
line 157). -/
def NUM_DATA_IN_QUERY : Int := 200

/-- MAX_TRIAL_NUM (src/lib/wrapper_binance.py line 236). -/
def MAX_TRIAL_NUM : Nat := 100

/-- The while loop of TickerDownloadManagerSpot.download
(src/lib/wrapper_binance.py lines 242-290). The fetch oracle maps the index
of a physical fetch call to its outcome; calls counts the calls already
made, so it is also the oracle index of the next call. remaining counts the
trials still allowed, MAX_TRIAL_NUM - trial_counter + 1, so the loop is
entered with remaining = MAX_TRIAL_NUM and the raise of line 282
(ExchangeResultsNotAvailableError once trial_counter exceeds MAX_TRIAL_NUM,
modelled by Except.error) fires when an empty chunk arrives with no trial
left. The cursor advance of line 283 moves from_date_selected forward by
int(NUM_DATA_IN_QUERY / 2) timeframe units, and line 285 turns a cursor at
or past the current aligned datetime into the END_OF_DATA status. An ok
result carries the returned row datetimes, the final last_dowload_status
and the total number of fetch calls made. -/
def download_go (tf : Tf) (act_datetime : Int) (fetch : Nat → ChunkResult) :
    Nat → Int → Nat → Except Unit (List Int × Option Int × Nat)
  | 0, _, _ => Except.error ()
  | remaining + 1, from_date_selected, calls =>
    match fetch calls with
    | ChunkResult.connectionError =>
      Except.ok ([], some RESULTS_STATUS_NETWORK_ERROR, calls + 1)
    | ChunkResult.networkError =>
      Except.ok ([], some RESULTS_STATUS_NETWORK_ERROR, calls + 1)
    | ChunkResult.serverTooBusy =>
      Except.ok ([], some RESULTS_STATUS_NETWORK_ERROR, calls + 1)
    | ChunkResult.resultsNotAvailable =>
      Except.ok ([], some RESULTS_STATUS_DATA_NOT_AVAILABLE, calls + 1)
    | ChunkResult.chunk dates =>
      if dates.isEmpty = false then
        Except.ok (dates, some RESULTS_STATUS_OK, calls + 1)
      else if remaining = 0 then
        Except.error ()
      else if act_datetime ≤
          offset_datetime from_date_selected (Int.tdiv NUM_DATA_IN_QUERY 2) tf then
        Except.ok ([], some RESULTS_STATUS_END_OF_DATA, calls + 1)
      else
        download_go tf act_datetime fetch remaining
          (offset_datetime from_date_selected (Int.tdiv NUM_DATA_IN_QUERY 2) tf)
          (calls + 1)

/-- TickerDownloadManagerSpot.download (src/lib/wrapper_binance.py lines
216-290): enter the retry loop with the full trial budget. The status reset
of lines 230-232 and the wait_for_session of lines 239-240 only affect
logging and pacing, not the returned value. -/
def download (tf : Tf) (act_datetime : Int) (fetch : Nat → ChunkResult)
    (from_date : Int) (calls : Nat) : Except Unit (List Int × Option Int × Nat) :=
  download_go tf act_datetime fetch MAX_TRIAL_NUM from_date calls

/-- Every successful exit of the retry loop makes at most remaining fetch
calls beyond those already counted. -/
theorem download_go_calls_le (tf : Tf) (act : Int) (fetch : Nat → ChunkResult) :
    ∀ (remaining : Nat) (fromSel : Int) (calls : Nat) (df : List Int)
      (st : Option Int) (calls2 : Nat),
    download_go tf act fetch remaining fromSel calls = Except.ok (df, st, calls2) →
    calls2 ≤ calls + remaining := by
  intro remaining
  induction remaining with
  | zero =>
    intro fromSel calls df st calls2 h
    exact absurd h (by simp [download_go])
  | succ n ih =>
    intro fromSel calls df st calls2 h
    unfold download_go at h
    split at h
    · simp at h
      omega
    · simp at h
      omega
    · simp at h
      omega
    · simp at h
      omega
    · split at h
      · simp at h
        omega
      · split at h
        · exact absurd h (by simp)
        · split at h
          · simp at h
            omega
          · have hrec := ih _ _ _ _ _ h
            omega

/-- One unfolding of the retry loop at an attempt that fetches an empty
chunk with at least one further trial allowed. -/
theorem download_go_empty_step (tf : Tf) (act : Int) (fetch : Nat → ChunkResult)
    (k : Nat) (fromSel : Int) (calls : Nat)
    (hfetch : fetch calls = ChunkResult.chunk []) :
    download_go tf act fetch (k + 2) fromSel calls
      = if act ≤ offset_datetime fromSel (Int.tdiv NUM_DATA_IN_QUERY 2) tf then
          Except.ok ([], some RESULTS_STATUS_END_OF_DATA, calls + 1)
        else
          download_go tf act fetch (k + 1)
            (offset_datetime fromSel (Int.tdiv NUM_DATA_IN_QUERY 2) tf)
            (calls + 1) := by
  conv_lhs => rw [download_go]
  rw [hfetch]
  rfl

/-- Claim C6: an attempt of the retry loop that fetches an empty chunk
advances the cursor by exactly int(NUM_DATA_IN_QUERY / 2) = 100 timeframe
steps before the next attempt; if the advanced cursor reaches or passes the
current aligned datetime the loop returns an empty chunk with the
END_OF_DATA status instead of an error; and a completed download makes at
most MAX_TRIAL_NUM = 100 fetch calls. -/
theorem claim_C6 (tf : Tf) (act : Int) (fetch : Nat → ChunkResult)
    (remaining : Nat) (fromSel : Int) (calls : Nat)
    (hfetch : fetch calls = ChunkResult.chunk [])
    (hrem : 1 < remaining) :
    offset_datetime fromSel (Int.tdiv NUM_DATA_IN_QUERY 2) tf
        = fromSel + 100 * tf.to_seconds
    ∧ (act ≤ offset_datetime fromSel (Int.tdiv NUM_DATA_IN_QUERY 2) tf →
        download_go tf act fetch remaining fromSel calls
          = Except.ok ([], some RESULTS_STATUS_END_OF_DATA, calls + 1))
    ∧ (offset_datetime fromSel (Int.tdiv NUM_DATA_IN_QUERY 2) tf < act →
        download_go tf act fetch remaining fromSel calls
          = download_go tf act fetch (remaining - 1)
              (offset_datetime fromSel (Int.tdiv NUM_DATA_IN_QUERY 2) tf)
              (calls + 1))
    ∧ (∀ (df : List Int) (st : Option Int) (calls2 : Nat),
        download tf act fetch fromSel calls = Except.ok (df, st, calls2) →
        calls2 ≤ calls + MAX_TRIAL_NUM) := by
  obtain ⟨k, rfl⟩ : ∃ k, remaining = k + 2 := ⟨remaining - 2, by omega⟩
  refine ⟨?_, ?_, ?_, ?_⟩
  · rw [offset_datetime_eq, show Int.tdiv NUM_DATA_IN_QUERY 2 = 100 from by decide]
  · intro h
    rw [download_go_empty_step tf act fetch k fromSel calls hfetch, if_pos h]
  · intro h
    rw [download_go_empty_step tf act fetch k fromSel calls hfetch,
      if_neg (not_le.mpr h)]
    rfl
  · intro df st calls2 h
    exact download_go_calls_le tf act fetch MAX_TRIAL_NUM fromSel calls df st calls2 h

/-- Witness for claim C6: a fetcher that always returns empty chunks, an
aligned current datetime of 100 seconds and an hourly cursor at 0: the
advanced cursor 360000 passes the current datetime, so the loop stops with
END_OF_DATA after one call. -/
theorem claim_C6_witness :
    download_go Tf.hour 100 (fun _ => ChunkResult.chunk []) 5 0 0
      = Except.ok ([], some RESULTS_STATUS_END_OF_DATA, 1) :=
  (claim_C6 Tf.hour 100 (fun _ => ChunkResult.chunk []) 5 0 0 rfl
    (by decide)).2.1 (by decide)

/-- The simulated remote fetcher of the rate-limit scenario: rate limited on
the first three calls (fetch_OHLCV maps RateLimitExceeded to
ServerTooBusyError), successful with one row from the fourth call on. -/
def rate_limited_then_ok_fetcher : Nat → ChunkResult :=
  fun n => if n < 3 then ChunkResult.serverTooBusy else ChunkResult.chunk [1673251200]

/-- Counterexample to claim C5: with the fetcher rate limited on its first
three calls, a single invocation of the download operation does NOT return
the successful chunk: the rate-limit exception breaks the retry loop at
once (src/lib/wrapper_binance.py lines 269-271), so the first invocation
returns an empty chunk with the network-error status after one fetch
call. -/
theorem claim_C5_counterexample :
    download Tf.hour 2000000000 rate_limited_then_ok_fetcher 1673251200 0
      = Except.ok ([], some RESULTS_STATUS_NETWORK_ERROR, 1)
    ∧ ([] : List Int) ≠ [1673251200] := by
  exact ⟨rfl, by decide⟩

/-- Claim C5 as amended: rate-limit errors abort the current download
invocation with the network-error status after a single fetch call; the
retry happens across invocations (the updater calls download again after
waiting for the session), so with three rate-limited calls followed by a
success, the first three invocations each return an empty chunk and the
fourth returns the successful non-empty chunk, for a total of four fetch
calls, well within the MAX_TRIAL_NUM = 100 budget. -/
theorem claim_C5_amended :
    download Tf.hour 2000000000 rate_limited_then_ok_fetcher 1673251200 0
      = Except.ok ([], some RESULTS_STATUS_NETWORK_ERROR, 1)
    ∧ download Tf.hour 2000000000 rate_limited_then_ok_fetcher 1673251200 1
      = Except.ok ([], some RESULTS_STATUS_NETWORK_ERROR, 2)
    ∧ download Tf.hour 2000000000 rate_limited_then_ok_fetcher 1673251200 2
      = Except.ok ([], some RESULTS_STATUS_NETWORK_ERROR, 3)
    ∧ download Tf.hour 2000000000 rate_limited_then_ok_fetcher 1673251200 3
      = Except.ok ([1673251200], some RESULTS_STATUS_OK, 4)
    ∧ 4 ≤ MAX_TRIAL_NUM := by
  exact ⟨rfl, rfl, rfl, rfl, by decide⟩

end CTMP
